import Mathlib

/-!
Verification of the football-env simulation core against its specification.

The definitions below are a shallow embedding of the Python sources under
src/game (entities.py, physics.py, engine.py, state.py).  Mutable Python
objects become immutable records with explicit state passing; machine floats
become real numbers; the per-tick mutation loops become structural recursion
over lists.  The configuration object (src/game/config.py, referenced by the
engine but not present in the source tree) is represented by a structure
holding exactly the fields the engine and physics read from it.
-/

namespace Football

open scoped Classical

noncomputable section

/-- Fields of game.config.GameConfig that engine.py and physics.py read.
The concrete dataclass lives in src/game/config.py which is not in the
source tree; this structure records the fields as used by the code. -/
structure GameConfig where
  field_width : ℝ
  field_height : ℝ
  goal_width : ℝ
  goal_height : ℝ
  corner_radius : ℝ
  player_radius : ℝ
  ball_radius : ℝ
  player_mass : ℝ
  ball_mass : ℝ
  player_max_speed : ℝ
  ball_max_speed : ℝ
  player_max_acceleration : ℝ
  ball_friction : ℝ
  kick_range : ℝ
  kick_power : ℝ
  kick_cooldown_ticks : ℤ
  goal_celebration_ticks : ℤ
  win_score : ℤ
  max_ticks : ℕ
  agent_timeout_ms : ℝ
  get_initial_ball_position : ℝ × ℝ
  get_initial_player_positions : ℤ → List (ℝ × ℝ)

/-- Common kinematic fields (x, y, vx, vy) shared by Player and Ball in
src/game/entities.py. -/
structure Body where
  x : ℝ
  y : ℝ
  vx : ℝ
  vy : ℝ

/-- The speed property of entities.py: math.sqrt(vx ** 2 + vy ** 2). -/
def Body.speed (b : Body) : ℝ := Real.sqrt (b.vx ^ 2 + b.vy ^ 2)

/-- src/game/entities.py Player dataclass. -/
structure Player extends Body where
  radius : ℝ
  team_id : ℤ
  player_id : ℕ
  mass : ℝ
  kick_cooldown : ℤ

def Player.speed (p : Player) : ℝ := p.toBody.speed

/-- src/game/entities.py Ball dataclass. -/
structure Ball extends Body where
  radius : ℝ
  mass : ℝ

def Ball.speed (b : Ball) : ℝ := b.toBody.speed

/-- src/game/entities.py Goal dataclass. -/
structure Goal where
  x : ℝ
  y : ℝ
  width : ℝ
  height : ℝ
  team_id : ℤ

def Goal.top (g : Goal) : ℝ := g.y - g.height / 2

def Goal.bottom (g : Goal) : ℝ := g.y + g.height / 2

/-- The Action type from agents/base.py (not in the source tree).
Modelled from the spec: requested horizontal and vertical acceleration plus
a boolean kick intent; the engine constructs the neutral default as
Action(0.0, 0.0), with kick absent, which the spec describes as the neutral
no-op action (zero acceleration, no kick). -/
structure Action where
  ax : ℝ
  ay : ℝ
  kick : Bool

/-- Physics._clamp_velocity: scale the velocity down to max_speed when its
magnitude exceeds max_speed. -/
def clampVelocity (b : Body) (maxSpeed : ℝ) : Body :=
  let speed := Real.sqrt (b.vx ^ 2 + b.vy ^ 2)
  if maxSpeed < speed then
    { b with vx := b.vx / speed * maxSpeed, vy := b.vy / speed * maxSpeed }
  else b

/-- Physics.apply_acceleration: clamp the acceleration magnitude, add it to
the velocity and clamp the result to the max player speed. -/
def applyAcceleration (cfg : GameConfig) (p : Player) (ax ay : ℝ) : Player :=
  let max_acc := cfg.player_max_acceleration
  let acc_mag := Real.sqrt (ax ^ 2 + ay ^ 2)
  let ax := if max_acc < acc_mag then ax / acc_mag * max_acc else ax
  let ay := if max_acc < acc_mag then ay / acc_mag * max_acc else ay
  let b := { p.toBody with vx := p.vx + ax, vy := p.vy + ay }
  { p with toBody := clampVelocity b cfg.player_max_speed }

/-- Physics.update_positions: Euler-integrate all positions, then apply
friction to the ball and clamp the ball velocity. -/
def updatePositions (cfg : GameConfig) (players : List Player) (ball : Ball) :
    List Player × Ball :=
  let players := players.map fun p => { p with x := p.x + p.vx, y := p.y + p.vy }
  let ball := { ball with x := ball.x + ball.vx, y := ball.y + ball.vy }
  let ball := { ball with vx := ball.vx * cfg.ball_friction,
                          vy := ball.vy * cfg.ball_friction }
  (players, { ball with toBody := clampVelocity ball.toBody cfg.ball_max_speed })

/-- Physics._is_in_corner_region: which of the four corner regions, if any,
contains the point; returns that corner arc center. -/
def isInCornerRegion (cfg : GameConfig) (x y : ℝ) : Option (ℝ × ℝ) :=
  let fw := cfg.field_width
  let fh := cfg.field_height
  let r := cfg.corner_radius
  if x < r ∧ y < r then some (r, r)
  else if fw - r < x ∧ y < r then some (fw - r, r)
  else if x < r ∧ fh - r < y then some (r, fh - r)
  else if fw - r < x ∧ fh - r < y then some (fw - r, fh - r)
  else none

/-- Physics._enforce_boundary: corner-arc containment with short-circuit,
otherwise per-wall clamping with goal-mouth pass-through for the ball. -/
def enforceBoundary (cfg : GameConfig) (e : Body) (radius : ℝ) (isBall : Bool) :
    Body :=
  let fw := cfg.field_width
  let fh := cfg.field_height
  let corner_r := cfg.corner_radius
  let restitution : ℝ := if isBall then 0.8 else 0.5
  let goal_top := fh / 2 - cfg.goal_height / 2
  let goal_bottom := fh / 2 + cfg.goal_height / 2
  match isInCornerRegion cfg e.x e.y with
  | some (cx, cy) =>
    let dx := e.x - cx
    let dy := e.y - cy
    let dist := Real.sqrt (dx ^ 2 + dy ^ 2)
    let max_dist := corner_r - radius
    if max_dist < dist then
      if 0.001 < dist then
        let nx := dx / dist
        let ny := dy / dist
        let e := { e with x := cx + nx * max_dist, y := cy + ny * max_dist }
        let dot := e.vx * nx + e.vy * ny
        if 0 < dot then
          { e with vx := e.vx - 2 * dot * nx * restitution,
                   vy := e.vy - 2 * dot * ny * restitution }
        else e
      else e
    else e
  | none =>
    let e : Body :=
      if e.x - radius < 0 ∧ (isBall = false ∨ ¬(goal_top ≤ e.y ∧ e.y ≤ goal_bottom)) then
        let e : Body := { e with x := radius }
        if e.vx < 0 then { e with vx := -e.vx * restitution } else e
      else e
    let e : Body :=
      if fw < e.x + radius ∧ (isBall = false ∨ ¬(goal_top ≤ e.y ∧ e.y ≤ goal_bottom)) then
        let e : Body := { e with x := fw - radius }
        if 0 < e.vx then { e with vx := -e.vx * restitution } else e
      else e
    let e : Body :=
      if e.y - radius < 0 then
        let e : Body := { e with y := radius }
        if e.vy < 0 then { e with vy := -e.vy * restitution } else e
      else e
    let e : Body :=
      if fh < e.y + radius then
        let e : Body := { e with y := fh - radius }
        if 0 < e.vy then { e with vy := -e.vy * restitution } else e
      else e
    e

/-- Physics._resolve_circle_collision: mass-weighted positional separation
followed by an impulse along the contact normal when approaching.  Returns
the two updated bodies and whether a collision was resolved. -/
def resolveCircleCollision (e1 : Body) (r1 : ℝ) (e2 : Body) (r2 m1 m2 restitution : ℝ) :
    Body × Body × Bool :=
  let dx := e2.x - e1.x
  let dy := e2.y - e1.y
  let dist := Real.sqrt (dx ^ 2 + dy ^ 2)
  let min_dist := r1 + r2
  if min_dist ≤ dist then (e1, e2, false)
  else
    let dx := if dist < 0.001 then 1.0 else dx
    let dy := if dist < 0.001 then 0.0 else dy
    let dist := if dist < 0.001 then 1.0 else dist
    let nx := dx / dist
    let ny := dy / dist
    let overlap := min_dist - dist
    let total_mass := m1 + m2
    let e1 := { e1 with x := e1.x - nx * overlap * (m2 / total_mass),
                        y := e1.y - ny * overlap * (m2 / total_mass) }
    let e2 := { e2 with x := e2.x + nx * overlap * (m1 / total_mass),
                        y := e2.y + ny * overlap * (m1 / total_mass) }
    let dvx := e2.vx - e1.vx
    let dvy := e2.vy - e1.vy
    let dvn := dvx * nx + dvy * ny
    if dvn < 0 then
      let j := -(1 + restitution) * dvn / (1 / m1 + 1 / m2)
      let e1 := { e1 with vx := e1.vx - j / m1 * nx, vy := e1.vy - j / m1 * ny }
      let e2 := { e2 with vx := e2.vx + j / m2 * nx, vy := e2.vy + j / m2 * ny }
      (e1, e2, true)
    else (e1, e2, true)

/-- One player-ball collision resolution (handle_all_collisions inner loop,
restitution 0.9). -/
def resolvePlayerBall (p : Player) (b : Ball) : Player × Ball × Bool :=
  let r := resolveCircleCollision p.toBody p.radius b.toBody b.radius p.mass b.mass 0.9
  ({ p with toBody := r.1 }, { b with toBody := r.2.1 }, r.2.2)

/-- The per-pass loop resolving every player against the ball in list order,
threading the mutated ball. -/
def playerBallLoop : List Player → Ball → List Player × Ball × Bool
  | [], b => ([], b, false)
  | p :: ps, b =>
    let r := resolvePlayerBall p b
    let rest := playerBallLoop ps r.2.1
    (r.1 :: rest.1, rest.2.1, r.2.2 || rest.2.2)

/-- Resolve one player against each later player in turn (the inner loop of
the pairwise player-player pass, restitution 0.5). -/
def playerPairInner : Player → List Player → Player × List Player × Bool
  | p, [] => (p, [], false)
  | p, q :: qs =>
    let r := resolveCircleCollision p.toBody p.radius q.toBody q.radius p.mass q.mass 0.5
    let p := { p with toBody := r.1 }
    let q := { q with toBody := r.2.1 }
    let rest := playerPairInner p qs
    (rest.1, q :: rest.2.1, r.2.2 || rest.2.2)

/-- The pairwise player-player collision pass over all unordered pairs.
The first argument is a structural-recursion fuel; callers pass the list
length, which every pass preserves, so the fuel never runs out. -/
def playerPairLoopAux : ℕ → List Player → List Player × Bool
  | 0, ps => (ps, false)
  | _ + 1, [] => ([], false)
  | n + 1, p :: ps =>
    let r := playerPairInner p ps
    let rest := playerPairLoopAux n r.2.1
    (r.1 :: rest.1, r.2.2 || rest.2)

/-- The pairwise player-player collision pass of handle_all_collisions. -/
def playerPairLoop (ps : List Player) : List Player × Bool :=
  playerPairLoopAux ps.length ps

/-- One pass of Physics.handle_all_collisions: boundary enforcement, the
player-ball pass, the player-player pass, boundary enforcement again. -/
def collisionPass (cfg : GameConfig) (ps : List Player) (b : Ball) :
    List Player × Ball × Bool :=
  let ps := ps.map fun p => { p with toBody := enforceBoundary cfg p.toBody p.radius false }
  let b := { b with toBody := enforceBoundary cfg b.toBody b.radius true }
  let r1 := playerBallLoop ps b
  let r2 := playerPairLoop r1.1
  let ps := r2.1.map fun p => { p with toBody := enforceBoundary cfg p.toBody p.radius false }
  let b := { r1.2.1 with toBody := enforceBoundary cfg r1.2.1.toBody r1.2.1.radius true }
  (ps, b, r1.2.2 || r2.2)

/-- The bounded fixed-point iteration of handle_all_collisions, with the
remaining pass budget as fuel. -/
def handleLoop (cfg : GameConfig) : ℕ → List Player → Ball → List Player × Ball
  | 0, ps, b => (ps, b)
  | Nat.succ n, ps, b =>
    let r := collisionPass cfg ps b
    if r.2.2 then handleLoop cfg n r.1 r.2.1 else (r.1, r.2.1)

/-- Physics.handle_all_collisions: up to 10 passes, stopping early once a
pass resolves no collision. -/
def handleAllCollisions (cfg : GameConfig) (ps : List Player) (b : Ball) :
    List Player × Ball :=
  handleLoop cfg 10 ps b

/-- Physics.check_goal: first goal whose vertical span contains the ball and
whose defended line the entire ball has crossed; returns the opponent team. -/
def checkGoal (cfg : GameConfig) (ball : Ball) : List Goal → Option ℤ
  | [] => none
  | g :: gs =>
    if g.top ≤ ball.y ∧ ball.y ≤ g.bottom then
      if g.team_id = 0 then
        if ball.x + ball.radius ≤ 0 then some (1 - g.team_id)
        else checkGoal cfg ball gs
      else
        if cfg.field_width ≤ ball.x - ball.radius then some (1 - g.team_id)
        else checkGoal cfg ball gs
    else checkGoal cfg ball gs

/-- Game._process_kicks body for a single player: decrement the cooldown if
positive, then apply a kick impulse when the action requests a kick, the
cooldown is zero and the ball is in range; reset the cooldown inside the
in-range branch. -/
def processKick (cfg : GameConfig) (acts : ℤ × ℕ → Option Action)
    (p : Player) (ball : Ball) : Player × Ball :=
  let action := acts (p.team_id, p.player_id)
  let p := if 0 < p.kick_cooldown then { p with kick_cooldown := p.kick_cooldown - 1 } else p
  match action with
  | none => (p, ball)
  | some a =>
    if a.kick = true ∧ p.kick_cooldown = 0 then
      let dx := ball.x - p.x
      let dy := ball.y - p.y
      let dist := Real.sqrt (dx ^ 2 + dy ^ 2)
      if dist ≤ cfg.kick_range then
        let ball :=
          if 0.001 < dist then
            { ball with vx := ball.vx + dx / dist * cfg.kick_power,
                        vy := ball.vy + dy / dist * cfg.kick_power }
          else
            let player_speed := Real.sqrt (p.vx ^ 2 + p.vy ^ 2)
            if 0.001 < player_speed then
              { ball with vx := ball.vx + p.vx / player_speed * cfg.kick_power,
                          vy := ball.vy + p.vy / player_speed * cfg.kick_power }
            else ball
        ({ p with kick_cooldown := cfg.kick_cooldown_ticks }, ball)
      else (p, ball)
    else (p, ball)

/-- Game._process_kicks over all players in order, threading the ball. -/
def processKicks (cfg : GameConfig) (acts : ℤ × ℕ → Option Action) :
    List Player → Ball → List Player × Ball
  | [], b => ([], b)
  | p :: ps, b =>
    let r := processKick cfg acts p b
    let rest := processKicks cfg acts ps r.2
    (r.1 :: rest.1, rest.2)

/-- src/game/state.py GameStatus enum. -/
inductive GameStatus
  | running
  | ended
deriving DecidableEq, Repr

/-- GameStatus.value: the stable string tag of a status. -/
def GameStatus.value : GameStatus → String
  | .running => "running"
  | .ended => "ended"

/-- The GameStatus(value) enum constructor lookup: parse a string tag back
to a status, failing on anything else. -/
def gameStatusOfString (s : String) : Option GameStatus :=
  if s = "running" then some GameStatus.running
  else if s = "ended" then some GameStatus.ended
  else none

/-- src/game/state.py PlayerState frozen dataclass. -/
structure PlayerState where
  x : ℝ
  y : ℝ
  vx : ℝ
  vy : ℝ
  team_id : ℤ
  player_id : ℕ
  kick_cooldown : ℤ

/-- PlayerState.from_player: copies position, velocity, identifiers and
cooldown; radius and mass of the live Player are not copied. -/
def PlayerState.from_player (p : Player) : PlayerState :=
  { x := p.x, y := p.y, vx := p.vx, vy := p.vy,
    team_id := p.team_id, player_id := p.player_id,
    kick_cooldown := p.kick_cooldown }

/-- src/game/state.py BallState frozen dataclass: its only fields are
x, y, vx, vy. -/
structure BallState where
  x : ℝ
  y : ℝ
  vx : ℝ
  vy : ℝ

/-- BallState.from_ball: copies position and velocity only; the radius and
mass of the live Ball do not appear in BallState. -/
def BallState.from_ball (b : Ball) : BallState :=
  { x := b.x, y := b.y, vx := b.vx, vy := b.vy }

/-- src/game/state.py GameState frozen dataclass.  The score is the runtime
tuple of integers, modelled as a list. -/
structure GameState where
  players : List PlayerState
  ball : BallState
  score : List ℤ
  tick : ℕ
  status : GameStatus
  field_width : ℝ
  field_height : ℝ
  goal_height : ℝ

/-- The dictionary produced by PlayerState.to_dict, with one entry per
PlayerState field. -/
structure PlayerStateDict where
  x : ℝ
  y : ℝ
  vx : ℝ
  vy : ℝ
  team_id : ℤ
  player_id : ℕ
  kick_cooldown : ℤ

def PlayerState.to_dict (p : PlayerState) : PlayerStateDict :=
  { x := p.x, y := p.y, vx := p.vx, vy := p.vy,
    team_id := p.team_id, player_id := p.player_id,
    kick_cooldown := p.kick_cooldown }

def PlayerState.from_dict (d : PlayerStateDict) : PlayerState :=
  { x := d.x, y := d.y, vx := d.vx, vy := d.vy,
    team_id := d.team_id, player_id := d.player_id,
    kick_cooldown := d.kick_cooldown }

/-- The dictionary produced by BallState.to_dict: x, y, vx, vy and nothing
else (in particular no radius or mass entry). -/
structure BallStateDict where
  x : ℝ
  y : ℝ
  vx : ℝ
  vy : ℝ

def BallState.to_dict (b : BallState) : BallStateDict :=
  { x := b.x, y := b.y, vx := b.vx, vy := b.vy }

def BallState.from_dict (d : BallStateDict) : BallState :=
  { x := d.x, y := d.y, vx := d.vx, vy := d.vy }

/-- The dictionary produced by GameState.to_dict; the status is stored as
its string tag. -/
structure GameStateDict where
  players : List PlayerStateDict
  ball : BallStateDict
  score : List ℤ
  tick : ℕ
  status : String
  field_width : ℝ
  field_height : ℝ
  goal_height : ℝ

def GameState.to_dict (s : GameState) : GameStateDict :=
  { players := s.players.map PlayerState.to_dict,
    ball := s.ball.to_dict,
    score := s.score,
    tick := s.tick,
    status := s.status.value,
    field_width := s.field_width,
    field_height := s.field_height,
    goal_height := s.goal_height }

/-- GameState.from_dict; parsing an unknown status tag fails, mirroring the
GameStatus(value) enum lookup raising in Python. -/
def GameState.from_dict (d : GameStateDict) : Option GameState :=
  match gameStatusOfString d.status with
  | none => none
  | some st =>
    some { players := d.players.map PlayerState.from_dict,
           ball := BallState.from_dict d.ball,
           score := d.score,
           tick := d.tick,
           status := st,
           field_width := d.field_width,
           field_height := d.field_height,
           goal_height := d.goal_height }

/-- The error message raised by GameState.get_player on a miss. -/
def playerNotFoundMsg (team_id : ℤ) (player_id : ℕ) : String :=
  "Player not found: team=" ++ toString team_id ++ ", player=" ++ toString player_id

/-- The lookup loop of GameState.get_player over the player tuple: first
match wins, a miss raises ValueError, modelled as Except.error. -/
def getPlayerAux (team_id : ℤ) (player_id : ℕ) :
    List PlayerState → Except String PlayerState
  | [] => Except.error (playerNotFoundMsg team_id player_id)
  | p :: ps =>
    if p.team_id = team_id ∧ p.player_id = player_id then Except.ok p
    else getPlayerAux team_id player_id ps

/-- GameState.get_player. -/
def GameState.get_player (s : GameState) (team_id : ℤ) (player_id : ℕ) :
    Except String PlayerState :=
  getPlayerAux team_id player_id s.players

/-- The outcome of one decision source on one tick, as observed by
Game._get_agent_actions: a returned action, a raised exception, or a missed
timeout window. -/
inductive AgentOutcome
  | ok (a : Action)
  | err
  | timedOut

/-- The neutral Action(0.0, 0.0) the engine substitutes.  Modelled from the
spec for the kick field: agents/base.py is not in the source tree and the
spec calls the default the neutral no-op action, zero acceleration and no
kick. -/
def defaultAction : Action := { ax := 0, ay := 0, kick := false }

/-- Game._get_agent_actions, abstracted over the per-agent outcomes of the
concurrent decision gathering: a produced action is recorded as is, an
exception or a timeout is silently replaced by the neutral default. -/
def getAgentActions (outcomes : ℤ × ℕ → AgentOutcome) (key : ℤ × ℕ) : Action :=
  match outcomes key with
  | .ok a => a
  | .err => defaultAction
  | .timedOut => defaultAction

/-- The score update self.score[scoring_team] += 1 of Game.step, for the
in-range team indices 0 and 1 produced by check_goal. -/
def incScore (s : List ℤ) (t : ℤ) : List ℤ :=
  s.set t.toNat (s.getD t.toNat 0 + 1)

/-- The full engine-owned game state of src/game/engine.py Game. -/
structure Game where
  players : List Player
  ball : Ball
  goals : List Goal
  score : List ℤ
  tick : ℕ
  status : GameStatus
  goal_celebration_remaining : ℤ
  pending_goal_scorer : Option ℤ

/-- The fresh random draws one call to Game.step may consume: the ball
velocity drawn in reset_positions and the per-player position jitter. -/
structure StepRandom where
  ballVel : ℝ × ℝ
  jitter : ℤ × ℕ → ℝ × ℝ

/-- Game.reset_positions, with the random draws passed in explicitly:
ball back to the kickoff point with the drawn velocity, every player to its
formation slot plus jitter with zero velocity and cleared cooldown. -/
def resetPositions (cfg : GameConfig) (rnd : StepRandom) (g : Game) : Game :=
  let ball := { g.ball with x := cfg.get_initial_ball_position.1,
                            y := cfg.get_initial_ball_position.2,
                            vx := rnd.ballVel.1, vy := rnd.ballVel.2 }
  let players := g.players.map fun p =>
    let pos := (cfg.get_initial_player_positions p.team_id).getD p.player_id (0, 0)
    let j := rnd.jitter (p.team_id, p.player_id)
    { p with x := pos.1 + j.1, y := pos.2 + j.2, vx := 0, vy := 0, kick_cooldown := 0 }
  { g with ball := ball, players := players }

/-- Game._setup_goals: the two goals at the field ends, team 0 defending the
left goal and team 1 the right goal. -/
def setupGoals (cfg : GameConfig) : List Goal :=
  [{ x := 0, y := cfg.field_height / 2, width := cfg.goal_width,
     height := cfg.goal_height, team_id := 0 },
   { x := cfg.field_width, y := cfg.field_height / 2, width := cfg.goal_width,
     height := cfg.goal_height, team_id := 1 }]

/-- Game._setup_players for one team: one player per formation slot, at the
slot position with zero velocity. -/
def setupTeam (cfg : GameConfig) (tid : ℤ) : List Player :=
  ((cfg.get_initial_player_positions tid).enum).map fun pi =>
    { x := pi.2.1, y := pi.2.2, vx := 0, vy := 0,
      radius := cfg.player_radius, team_id := tid, player_id := pi.1,
      mass := cfg.player_mass, kick_cooldown := 0 }

/-- The game state Game.__init__ builds, with the random initial ball
velocity passed in explicitly. -/
def initialGame (cfg : GameConfig) (ballVel : ℝ × ℝ) : Game :=
  { players := setupTeam cfg 0 ++ setupTeam cfg 1,
    ball := { x := cfg.get_initial_ball_position.1,
              y := cfg.get_initial_ball_position.2,
              vx := ballVel.1, vy := ballVel.2,
              radius := cfg.ball_radius, mass := cfg.ball_mass },
    goals := setupGoals cfg,
    score := [0, 0],
    tick := 0,
    status := GameStatus.running,
    goal_celebration_remaining := 0,
    pending_goal_scorer := none }

/-- The goal-detection transition at the end of a normal Game.step tick:
when check_goal reports a scorer, start the celebration countdown and record
the pending scorer; otherwise leave the game unchanged. -/
def applyGoalDetection (cfg : GameConfig) (g : Game) (detected : Option ℤ) : Game :=
  match detected with
  | some t => { g with goal_celebration_remaining := cfg.goal_celebration_ticks,
                       pending_goal_scorer := some t }
  | none => g

/-- Game.step, with the actions returned by decision gathering and the
random draws passed in explicitly.  Returns the updated game and the
scoring team of this tick, if any. -/
def step (cfg : GameConfig) (acts : ℤ × ℕ → Option Action) (rnd : StepRandom)
    (g : Game) : Game × Option ℤ :=
  if g.status ≠ GameStatus.running then (g, none)
  else
    let r :=
      if 0 < g.goal_celebration_remaining then
        let u := updatePositions cfg g.players g.ball
        let h := handleAllCollisions cfg u.1 u.2
        let rem := g.goal_celebration_remaining - 1
        let g := { g with players := h.1, ball := h.2,
                          goal_celebration_remaining := rem }
        match g.pending_goal_scorer with
        | some t =>
          if rem = 0 then
            let g := { g with score := incScore g.score t }
            let g := resetPositions cfg rnd g
            let g := { g with pending_goal_scorer := none }
            let g := if cfg.win_score ≤ g.score.getD t.toNat 0 then
                       { g with status := GameStatus.ended } else g
            (g, some t)
          else (g, none)
        | none => (g, none)
      else
        let players := g.players.map fun p =>
          match acts (p.team_id, p.player_id) with
          | some a => applyAcceleration cfg p a.ax a.ay
          | none => p
        let k := processKicks cfg acts players g.ball
        let u := updatePositions cfg k.1 k.2
        let h := handleAllCollisions cfg u.1 u.2
        let detected := checkGoal cfg h.2 g.goals
        let g := { g with players := h.1, ball := h.2 }
        (applyGoalDetection cfg g detected, detected)
    let g := { r.1 with tick := r.1.tick + 1 }
    let g := if cfg.max_ticks ≤ g.tick then { g with status := GameStatus.ended } else g
    (g, r.2)

/-- A concrete configuration used to instantiate theorems with hypotheses
and to exhibit counterexamples; field and goal geometry match the mock
state used in src/test_game.py. -/
def cfgW : GameConfig :=
  { field_width := 1000, field_height := 600, goal_width := 10,
    goal_height := 120, corner_radius := 50, player_radius := 15,
    ball_radius := 10, player_mass := 1, ball_mass := 1/2,
    player_max_speed := 30, ball_max_speed := 20,
    player_max_acceleration := 2, ball_friction := 1/2,
    kick_range := 40, kick_power := 15, kick_cooldown_ticks := 30,
    goal_celebration_ticks := 60, win_score := 5, max_ticks := 1000,
    agent_timeout_ms := 50, get_initial_ball_position := (500, 300),
    get_initial_player_positions := fun _ => [(200, 300)] }

/-- A ball fully past the left goal line: x = -radius - 0.01. -/
def ballYes : Ball :=
  { x := -10.01, y := 300, vx := 0, vy := 0, radius := 10, mass := 1/2 }

/-- A ball not fully past the left goal line: x = -radius + 0.01. -/
def ballNo : Ball :=
  { x := -9.99, y := 300, vx := 0, vy := 0, radius := 10, mass := 1/2 }

/-- A live ball of radius 10. -/
def ballR10 : Ball :=
  { x := 500, y := 300, vx := 0, vy := 0, radius := 10, mass := 1/2 }

/-- A live ball identical to ballR10 except for its radius. -/
def ballR20 : Ball :=
  { x := 500, y := 300, vx := 0, vy := 0, radius := 20, mass := 1/2 }

/-- An outcome assignment where participant (0,0) raises and every other
participant returns a non-neutral action. -/
def outcomesW : ℤ × ℕ → AgentOutcome := fun k =>
  if k = ((0 : ℤ), (0 : ℕ)) then AgentOutcome.err
  else AgentOutcome.ok { ax := 1, ay := 2, kick := true }

/-- A concrete snapshot with one player per team, for the lookup claims. -/
def sW : GameState :=
  { players := [{ x := 250, y := 300, vx := 0, vy := 0, team_id := 0,
                  player_id := 0, kick_cooldown := 0 },
                { x := 750, y := 300, vx := 3, vy := 4, team_id := 1,
                  player_id := 0, kick_cooldown := 5 }],
    ball := { x := 500, y := 300, vx := 0, vy := 0 },
    score := [0, 0], tick := 0, status := GameStatus.running,
    field_width := 1000, field_height := 600, goal_height := 120 }

/-- Fixed random draws for steps whose random branch is irrelevant. -/
def rnd0 : StepRandom := { ballVel := (0, 0), jitter := fun _ => (0, 0) }

/-- An action assignment where every player sends the neutral action. -/
def acts0 : ℤ × ℕ → Option Action := fun _ =>
  some { ax := 0, ay := 0, kick := false }

/-- A game one celebration tick away from crediting the pending goal of
team 0. -/
def gC10 : Game :=
  { players := [],
    ball := { x := 0, y := 0, vx := 0, vy := 0, radius := 10, mass := 1/2 },
    goals := setupGoals cfgW, score := [0, 0], tick := 0,
    status := GameStatus.running, goal_celebration_remaining := 1,
    pending_goal_scorer := some 0 }

/-- A configuration whose initial formation puts the single team-0 player
overlapping the kickoff ball, with max ball speed 1. -/
def cfgC1 : GameConfig :=
  { field_width := 1000, field_height := 600, goal_width := 10,
    goal_height := 120, corner_radius := 50, player_radius := 15,
    ball_radius := 10, player_mass := 1, ball_mass := 1/2,
    player_max_speed := 30, ball_max_speed := 1,
    player_max_acceleration := 2, ball_friction := 1/2,
    kick_range := 40, kick_power := 15, kick_cooldown_ticks := 30,
    goal_celebration_ticks := 60, win_score := 5, max_ticks := 1000,
    agent_timeout_ms := 50, get_initial_ball_position := (310, 300),
    get_initial_player_positions := fun t => if t = 0 then [(300, 300)] else [] }

/-- An action assignment accelerating every player to the right. -/
def actsC1 : ℤ × ℕ → Option Action := fun _ =>
  some { ax := 2, ay := 0, kick := false }

/-- The game Game.__init__ builds for cfgC1 when the random initial ball
velocity draw is (2, 0), whose speed 2 lies in the legal range 2 to 5. -/
def gC1 : Game := initialGame cfgC1 (2, 0)

/-- An action assignment where every player requests a kick. -/
def actsKick : ℤ × ℕ → Option Action := fun _ =>
  some { ax := 0, ay := 0, kick := true }

/-- A player with kick cooldown 1 at the start of the tick. -/
def pC3 : Player :=
  { x := 100, y := 100, vx := 0, vy := 0, radius := 15, team_id := 0,
    player_id := 0, mass := 1, kick_cooldown := 1 }

/-- A player with kick cooldown 5 at the start of the tick. -/
def pC3W : Player :=
  { x := 100, y := 100, vx := 0, vy := 0, radius := 15, team_id := 0,
    player_id := 0, mass := 1, kick_cooldown := 5 }

/-- A player with kick cooldown 0 at the start of the tick. -/
def pC5 : Player :=
  { x := 100, y := 100, vx := 0, vy := 0, radius := 15, team_id := 0,
    player_id := 0, mass := 1, kick_cooldown := 0 }

/-- A ball 30 units from the players above: inside the kick range 40. -/
def ballC3 : Ball :=
  { x := 130, y := 100, vx := 0, vy := 0, radius := 10, mass := 1/2 }

/-- A ball 400 units from the players above: outside the kick range 40. -/
def ballC5 : Ball :=
  { x := 500, y := 100, vx := 0, vy := 0, radius := 10, mass := 1/2 }

end

/-! ## Theorems -/

/-- Evaluate a square root at a perfect square. -/
theorem sqrt_val {a b : ℝ} (hb : 0 ≤ b) (h : b ^ 2 = a) : Real.sqrt a = b := by
  subst h
  exact Real.sqrt_sq hb

/-- The normalized direction vector has unit squared norm. -/
theorem normSq_unit {dx dy : ℝ} (h : Real.sqrt (dx ^ 2 + dy ^ 2) ≠ 0) :
    (dx / Real.sqrt (dx ^ 2 + dy ^ 2)) ^ 2 + (dy / Real.sqrt (dx ^ 2 + dy ^ 2)) ^ 2 = 1 := by
  have hsq : Real.sqrt (dx ^ 2 + dy ^ 2) ^ 2 = dx ^ 2 + dy ^ 2 :=
    Real.sq_sqrt (by positivity)
  have h2 : Real.sqrt (dx ^ 2 + dy ^ 2) ^ 2 ≠ 0 := pow_ne_zero _ h
  rw [div_pow, div_pow, div_add_div_same, hsq]
  rw [hsq] at h2
  exact div_self h2

/-- C2: for the two goals built at setup, check_goal returns team t exactly
when the vertical span of the goals contains the ball center and either
t = 1 with the whole ball past the left line (x + radius ≤ 0) or t = 0 with
the whole ball past the right line (x - radius ≥ field width); otherwise it
returns no result. -/
theorem c2_checkGoal_exact (cfg : GameConfig) (ball : Ball) (t : ℤ)
    (hw : 0 < cfg.field_width) (hr : 0 ≤ ball.radius) :
    checkGoal cfg ball (setupGoals cfg) = some t ↔
      ((cfg.field_height / 2 - cfg.goal_height / 2 ≤ ball.y ∧
        ball.y ≤ cfg.field_height / 2 + cfg.goal_height / 2) ∧
       ((t = 1 ∧ ball.x + ball.radius ≤ 0) ∨
        (t = 0 ∧ cfg.field_width ≤ ball.x - ball.radius))) := by
  have hexcl : ¬(ball.x + ball.radius ≤ 0 ∧ cfg.field_width ≤ ball.x - ball.radius) := by
    rintro ⟨h1, h2⟩
    linarith
  simp only [checkGoal, setupGoals, Goal.top, Goal.bottom]
  norm_num
  split_ifs with h1 h2 h3
  · simp only [Option.some.injEq]
    constructor
    · intro ht
      exact ⟨h1, Or.inl ⟨ht.symm, h2⟩⟩
    · rintro ⟨-, ⟨rfl, -⟩ | ⟨rfl, hcr⟩⟩
      · rfl
      · exact absurd ⟨h2, hcr⟩ hexcl
  · simp only [Option.some.injEq]
    constructor
    · intro ht
      exact ⟨h1, Or.inr ⟨ht.symm, h3⟩⟩
    · rintro ⟨-, ⟨rfl, hcl⟩ | ⟨rfl, -⟩⟩
      · exact absurd hcl h2
      · rfl
  · constructor
    · intro hnone
      exact hnone.elim
    · rintro ⟨-, ⟨rfl, hcl⟩ | ⟨rfl, hcr⟩⟩
      · exact absurd hcl h2
      · exact absurd hcr h3
  · constructor
    · intro hnone
      exact hnone.elim
    · rintro ⟨hspan, -⟩
      exact absurd hspan h1

/-- C2 witness: with the concrete configuration, a ball at x = -10.01 of
radius 10 in the goal mouth scores for team 1, while a ball at x = -9.99
does not score at all. -/
theorem c2_witness :
    checkGoal cfgW ballYes (setupGoals cfgW) = some 1 ∧
    checkGoal cfgW ballNo (setupGoals cfgW) = none := by
  constructor
  · exact (c2_checkGoal_exact cfgW ballYes 1 (by norm_num [cfgW])
      (by norm_num [ballYes])).2 (by norm_num [cfgW, ballYes])
  · cases hg : checkGoal cfgW ballNo (setupGoals cfgW) with
    | none => rfl
    | some t =>
      exfalso
      have h := (c2_checkGoal_exact cfgW ballNo t (by norm_num [cfgW])
        (by norm_num [ballNo])).1 hg
      norm_num [cfgW, ballNo] at h

/-- C7 (amended): GameState serialization round-trips exactly and the status
is encoded as its stable string tag; the fields preserved for the ball are
those of BallState, namely position and velocity. -/
theorem c7_roundtrip (s : GameState) :
    GameState.from_dict (GameState.to_dict s) = some s ∧
    (GameState.to_dict s).status = GameStatus.value s.status ∧
    GameStatus.value GameStatus.running = "running" ∧
    GameStatus.value GameStatus.ended = "ended" := by
  refine ⟨?_, rfl, rfl, rfl⟩
  have hp : ∀ p, PlayerState.from_dict (PlayerState.to_dict p) = p := fun p => rfl
  have hst : gameStatusOfString (GameStatus.value s.status) = some s.status := by
    cases s.status <;> rfl
  have hmap : List.map (PlayerState.from_dict ∘ PlayerState.to_dict) s.players = s.players := by
    simp [Function.comp_def, hp]
  simp only [GameState.from_dict, GameState.to_dict, hst, List.map_map,
    BallState.from_dict, BallState.to_dict, hmap]

/-- C7 counterexample: two live balls that differ only in radius produce the
same BallState snapshot, so the snapshot dictionary encoding of the ball
does not preserve the radius (BallState holds only x, y, vx, vy). -/
theorem c7_counterexample :
    BallState.from_ball ballR10 = BallState.from_ball ballR20 ∧
    ballR10.radius ≠ ballR20.radius := by
  refine ⟨rfl, ?_⟩
  norm_num [ballR10, ballR20]

/-- C8: a decision source that raises or misses the timeout window
contributes exactly the neutral default action (zero acceleration, no kick),
and the action recorded for any participant depends only on the outcome of
that same participant. -/
theorem c8_timeout_default (outcomes : ℤ × ℕ → AgentOutcome) (k : ℤ × ℕ) :
    (outcomes k = AgentOutcome.err ∨ outcomes k = AgentOutcome.timedOut →
      getAgentActions outcomes k = defaultAction) ∧
    defaultAction = { ax := 0, ay := 0, kick := false } ∧
    (∀ (o2 : ℤ × ℕ → AgentOutcome) (k2 : ℤ × ℕ), outcomes k2 = o2 k2 →
      getAgentActions outcomes k2 = getAgentActions o2 k2) := by
  refine ⟨?_, rfl, ?_⟩
  · rintro (h | h) <;> simp [getAgentActions, h]
  · intro o2 k2 h
    simp [getAgentActions, h]

/-- C8 witness: with a concrete outcome assignment where participant (0,0)
raises, the recorded action for (0,0) is the neutral default. -/
theorem c8_witness : getAgentActions outcomesW (0, 0) = defaultAction :=
  (c8_timeout_default outcomesW (0, 0)).1 (Or.inl (by simp [outcomesW]))

/-- The lookup loop behind GameState.get_player: it returns a contained
matching player when one exists and the not-found error otherwise. -/
theorem getPlayerAux_spec (t : ℤ) (i : ℕ) (l : List PlayerState) :
    ((∃ p ∈ l, p.team_id = t ∧ p.player_id = i) →
      ∃ p, getPlayerAux t i l = Except.ok p ∧ p ∈ l ∧ p.team_id = t ∧ p.player_id = i)
    ∧ ((¬ ∃ p ∈ l, p.team_id = t ∧ p.player_id = i) →
      getPlayerAux t i l = Except.error (playerNotFoundMsg t i)) := by
  induction l with
  | nil => simp [getPlayerAux]
  | cons p ps ih =>
    by_cases h : p.team_id = t ∧ p.player_id = i
    · refine ⟨fun _ => ⟨p, ?_⟩, fun hno => ?_⟩
      · simp [getPlayerAux, h]
      · exact absurd ⟨p, by simp, h⟩ hno
    · constructor
      · rintro ⟨q, hq, hqi⟩
        rcases List.mem_cons.mp hq with rfl | hq2
        · exact absurd hqi h
        · obtain ⟨r, hr1, hr2, hr3⟩ := ih.1 ⟨q, hq2, hqi⟩
          exact ⟨r, by simpa [getPlayerAux, h] using hr1, List.mem_cons_of_mem _ hr2, hr3⟩
      · intro hno
        have : ¬ ∃ q ∈ ps, q.team_id = t ∧ q.player_id = i := by
          rintro ⟨q, hq, hqi⟩
          exact hno ⟨q, List.mem_cons_of_mem _ hq, hqi⟩
        simpa [getPlayerAux, h] using ih.2 this

/-- C9: GameState.get_player returns a contained PlayerState whose team and
player identifiers both match when one exists, and fails loudly with the
not-found error when none does. -/
theorem c9_get_player (s : GameState) (t : ℤ) (i : ℕ) :
    ((∃ p ∈ s.players, p.team_id = t ∧ p.player_id = i) →
      ∃ p, s.get_player t i = Except.ok p ∧ p ∈ s.players ∧ p.team_id = t ∧ p.player_id = i)
    ∧ ((¬ ∃ p ∈ s.players, p.team_id = t ∧ p.player_id = i) →
      s.get_player t i = Except.error (playerNotFoundMsg t i)) :=
  getPlayerAux_spec t i s.players

/-- C9 witness: looking up the nonexistent team 2 in the concrete snapshot
fails loudly with the not-found error. -/
theorem c9_witness : sW.get_player 2 0 = Except.error (playerNotFoundMsg 2 0) :=
  (c9_get_player sW 2 0).2 (by simp [sW])

/-- C3 (amended): for a player whose kick cooldown is still positive after
the decrement, that is at least 2 at the start of the tick, a kick request
has no effect on the ball and the cooldown decrements by exactly 1 during
kick processing. -/
theorem c3_cooldown_blocks (cfg : GameConfig) (acts : ℤ × ℕ → Option Action)
    (p : Player) (ball : Ball) (h : 1 < p.kick_cooldown) :
    processKick cfg acts p ball =
      ({ p with kick_cooldown := p.kick_cooldown - 1 }, ball) := by
  have h0 : 0 < p.kick_cooldown := by omega
  have hne : ¬(p.kick_cooldown - 1 = 0) := by omega
  unfold processKick
  rw [if_pos h0]
  cases acts (p.team_id, p.player_id) with
  | none => rfl
  | some a => simp [hne]

/-- C3 witness: a player with cooldown 5 requesting a kick with the ball in
range leaves the ball untouched and ends the tick with cooldown 4. -/
theorem c3_witness :
    (processKick cfgW actsKick pC3W ballC3).1.kick_cooldown = 4 ∧
    (processKick cfgW actsKick pC3W ballC3).2 = ballC3 := by
  rw [c3_cooldown_blocks cfgW actsKick pC3W ballC3 (by norm_num [pC3W])]
  norm_num [pC3W]

/-- C3 counterexample: a player with cooldown 1 at the start of the tick,
so greater than 0, requesting a kick with the ball in range does change the
ball velocity, and its cooldown ends at the configured reset value rather
than the decremented value 0: the decrement reaches 0 first and the kick is
then judged legal on the same tick. -/
theorem c3_counterexample :
    (processKick cfgW actsKick pC3 ballC3).2.vx ≠ ballC3.vx ∧
    (processKick cfgW actsKick pC3 ballC3).1.kick_cooldown ≠ pC3.kick_cooldown - 1 := by
  have s900 : Real.sqrt 900 = 30 := sqrt_val (by norm_num) (by norm_num)
  constructor <;>
    norm_num [processKick, pC3, ballC3, actsKick, cfgW, s900]

/-- C5 (amended): on a legal kick (kick requested, cooldown zero after the
decrement) the cooldown is reset to the configured ticks whenever the ball
is within kick range, regardless of whether an impulse was applied — in
particular also when the player is coincident with the ball and stationary,
where the ball is left untouched; but when the ball is outside the kick
range no reset happens: the cooldown stays 0 and the ball is untouched. -/
theorem c5_reset_in_range (cfg : GameConfig) (acts : ℤ × ℕ → Option Action)
    (p : Player) (ball : Ball) (a : Action)
    (ha : acts (p.team_id, p.player_id) = some a) (hk : a.kick = true)
    (hc : p.kick_cooldown = 0 ∨ p.kick_cooldown = 1) :
    (Real.sqrt ((ball.x - p.x) ^ 2 + (ball.y - p.y) ^ 2) ≤ cfg.kick_range →
      (processKick cfg acts p ball).1.kick_cooldown = cfg.kick_cooldown_ticks) ∧
    (cfg.kick_range < Real.sqrt ((ball.x - p.x) ^ 2 + (ball.y - p.y) ^ 2) →
      (processKick cfg acts p ball).1.kick_cooldown = 0 ∧
      (processKick cfg acts p ball).2 = ball) ∧
    (Real.sqrt ((ball.x - p.x) ^ 2 + (ball.y - p.y) ^ 2) ≤ cfg.kick_range →
      ¬(0.001 < Real.sqrt ((ball.x - p.x) ^ 2 + (ball.y - p.y) ^ 2)) →
      ¬(0.001 < Real.sqrt (p.vx ^ 2 + p.vy ^ 2)) →
      (processKick cfg acts p ball).2 = ball ∧
      (processKick cfg acts p ball).1.kick_cooldown = cfg.kick_cooldown_ticks) := by
  refine ⟨fun hin => ?_, fun hout => ?_, fun hin hnd hns => ?_⟩
  · rcases hc with hc | hc <;> norm_num [processKick, ha, hk, hc, hin]
  · rcases hc with hc | hc <;> norm_num [processKick, ha, hk, hc, not_le.mpr hout]
  · norm_num at hnd hns
    rcases hc with hc | hc <;>
      norm_num [processKick, ha, hk, hc, hin, not_lt.mpr hnd, not_lt.mpr hns]

/-- C5 witness: a legal kick with the ball in range resets the cooldown of
the kicking player to the configured 30 ticks. -/
theorem c5_witness :
    (processKick cfgW actsKick pC5 ballC3).1.kick_cooldown = cfgW.kick_cooldown_ticks := by
  have s900 : Real.sqrt 900 = 30 := sqrt_val (by norm_num) (by norm_num)
  refine (c5_reset_in_range cfgW actsKick pC5 ballC3
    { ax := 0, ay := 0, kick := true } rfl rfl (Or.inl rfl)).1 ?_
  norm_num [ballC3, pC5, cfgW, s900]

/-- C5 counterexample: a legal kick (kick requested, cooldown 0) with the
ball outside the configured kick range does not reset the cooldown to the
configured ticks: it stays 0, so the reset is not unconditional. -/
theorem c5_counterexample :
    (processKick cfgW actsKick pC5 ballC5).1.kick_cooldown ≠ cfgW.kick_cooldown_ticks := by
  have s160000 : Real.sqrt 160000 = 400 := sqrt_val (by norm_num) (by norm_num)
  norm_num [processKick, pC5, ballC5, actsKick, cfgW, s160000]

/-- Norm of a scaled unit direction vector. -/
theorem sqrt_scaled_unit {nx ny k : ℝ} (h1 : nx ^ 2 + ny ^ 2 = 1) (hk : 0 ≤ k) :
    Real.sqrt ((nx * k) ^ 2 + (ny * k) ^ 2) = k := by
  have harg : (nx * k) ^ 2 + (ny * k) ^ 2 = k ^ 2 := by
    have : (nx * k) ^ 2 + (ny * k) ^ 2 = (nx ^ 2 + ny ^ 2) * k ^ 2 := by ring
    rw [this, h1, one_mul]
  rw [harg]
  exact Real.sqrt_sq hk

set_option maxHeartbeats 2000000 in
/-- C6 (amended): for two overlapping circles whose centers are at least
0.001 apart, each circle is displaced along the contact normal by the
overlap times the mass share of the other circle — distance moved is
overlap times other mass over (m1 + m2) — and the overlap is fully
eliminated in one call: the new center distance is exactly r1 + r2. -/
theorem c6_mass_weighted_separation (e1 : Body) (r1 : ℝ) (e2 : Body)
    (r2 m1 m2 rest : ℝ)
    (hdist : 0.001 ≤ Real.sqrt ((e2.x - e1.x) ^ 2 + (e2.y - e1.y) ^ 2))
    (hover : Real.sqrt ((e2.x - e1.x) ^ 2 + (e2.y - e1.y) ^ 2) < r1 + r2)
    (hm1 : 0 < m1) (hm2 : 0 < m2) :
    ((resolveCircleCollision e1 r1 e2 r2 m1 m2 rest).1.x =
       e1.x - (e2.x - e1.x) / Real.sqrt ((e2.x - e1.x) ^ 2 + (e2.y - e1.y) ^ 2) *
         (r1 + r2 - Real.sqrt ((e2.x - e1.x) ^ 2 + (e2.y - e1.y) ^ 2)) *
         (m2 / (m1 + m2)) ∧
     (resolveCircleCollision e1 r1 e2 r2 m1 m2 rest).1.y =
       e1.y - (e2.y - e1.y) / Real.sqrt ((e2.x - e1.x) ^ 2 + (e2.y - e1.y) ^ 2) *
         (r1 + r2 - Real.sqrt ((e2.x - e1.x) ^ 2 + (e2.y - e1.y) ^ 2)) *
         (m2 / (m1 + m2)) ∧
     (resolveCircleCollision e1 r1 e2 r2 m1 m2 rest).2.1.x =
       e2.x + (e2.x - e1.x) / Real.sqrt ((e2.x - e1.x) ^ 2 + (e2.y - e1.y) ^ 2) *
         (r1 + r2 - Real.sqrt ((e2.x - e1.x) ^ 2 + (e2.y - e1.y) ^ 2)) *
         (m1 / (m1 + m2)) ∧
     (resolveCircleCollision e1 r1 e2 r2 m1 m2 rest).2.1.y =
       e2.y + (e2.y - e1.y) / Real.sqrt ((e2.x - e1.x) ^ 2 + (e2.y - e1.y) ^ 2) *
         (r1 + r2 - Real.sqrt ((e2.x - e1.x) ^ 2 + (e2.y - e1.y) ^ 2)) *
         (m1 / (m1 + m2))) ∧
    (Real.sqrt (((resolveCircleCollision e1 r1 e2 r2 m1 m2 rest).1.x - e1.x) ^ 2 +
        ((resolveCircleCollision e1 r1 e2 r2 m1 m2 rest).1.y - e1.y) ^ 2) =
       (r1 + r2 - Real.sqrt ((e2.x - e1.x) ^ 2 + (e2.y - e1.y) ^ 2)) *
         (m2 / (m1 + m2)) ∧
     Real.sqrt (((resolveCircleCollision e1 r1 e2 r2 m1 m2 rest).2.1.x - e2.x) ^ 2 +
        ((resolveCircleCollision e1 r1 e2 r2 m1 m2 rest).2.1.y - e2.y) ^ 2) =
       (r1 + r2 - Real.sqrt ((e2.x - e1.x) ^ 2 + (e2.y - e1.y) ^ 2)) *
         (m1 / (m1 + m2))) ∧
    Real.sqrt (((resolveCircleCollision e1 r1 e2 r2 m1 m2 rest).2.1.x -
        (resolveCircleCollision e1 r1 e2 r2 m1 m2 rest).1.x) ^ 2 +
       ((resolveCircleCollision e1 r1 e2 r2 m1 m2 rest).2.1.y -
        (resolveCircleCollision e1 r1 e2 r2 m1 m2 rest).1.y) ^ 2) = r1 + r2 := by
  have hd0 : (0 : ℝ) < Real.sqrt ((e2.x - e1.x) ^ 2 + (e2.y - e1.y) ^ 2) :=
    lt_of_lt_of_le (by norm_num) hdist
  have hdne : Real.sqrt ((e2.x - e1.x) ^ 2 + (e2.y - e1.y) ^ 2) ≠ 0 := ne_of_gt hd0
  have hM : (0 : ℝ) < m1 + m2 := by linarith
  have hMne : m1 + m2 ≠ 0 := ne_of_gt hM
  have hu : ((e2.x - e1.x) / Real.sqrt ((e2.x - e1.x) ^ 2 + (e2.y - e1.y) ^ 2)) ^ 2 +
      ((e2.y - e1.y) / Real.sqrt ((e2.x - e1.x) ^ 2 + (e2.y - e1.y) ^ 2)) ^ 2 = 1 :=
    normSq_unit hdne
  have hko : (0 : ℝ) ≤ r1 + r2 - Real.sqrt ((e2.x - e1.x) ^ 2 + (e2.y - e1.y) ^ 2) := by
    linarith
  have hnn : ¬ (r1 + r2 ≤ Real.sqrt ((e2.x - e1.x) ^ 2 + (e2.y - e1.y) ^ 2)) :=
    not_le.mpr hover
  have hn001 : ¬ (Real.sqrt ((e2.x - e1.x) ^ 2 + (e2.y - e1.y) ^ 2) < 0.001) :=
    not_lt.mpr hdist
  have h1x : (resolveCircleCollision e1 r1 e2 r2 m1 m2 rest).1.x =
      e1.x - (e2.x - e1.x) / Real.sqrt ((e2.x - e1.x) ^ 2 + (e2.y - e1.y) ^ 2) *
        (r1 + r2 - Real.sqrt ((e2.x - e1.x) ^ 2 + (e2.y - e1.y) ^ 2)) * (m2 / (m1 + m2)) := by
    unfold resolveCircleCollision
    simp only [if_neg hnn, if_neg hn001]
    split_ifs <;> rfl
  have h1y : (resolveCircleCollision e1 r1 e2 r2 m1 m2 rest).1.y =
      e1.y - (e2.y - e1.y) / Real.sqrt ((e2.x - e1.x) ^ 2 + (e2.y - e1.y) ^ 2) *
        (r1 + r2 - Real.sqrt ((e2.x - e1.x) ^ 2 + (e2.y - e1.y) ^ 2)) * (m2 / (m1 + m2)) := by
    unfold resolveCircleCollision
    simp only [if_neg hnn, if_neg hn001]
    split_ifs <;> rfl
  have h2x : (resolveCircleCollision e1 r1 e2 r2 m1 m2 rest).2.1.x =
      e2.x + (e2.x - e1.x) / Real.sqrt ((e2.x - e1.x) ^ 2 + (e2.y - e1.y) ^ 2) *
        (r1 + r2 - Real.sqrt ((e2.x - e1.x) ^ 2 + (e2.y - e1.y) ^ 2)) * (m1 / (m1 + m2)) := by
    unfold resolveCircleCollision
    simp only [if_neg hnn, if_neg hn001]
    split_ifs <;> rfl
  have h2y : (resolveCircleCollision e1 r1 e2 r2 m1 m2 rest).2.1.y =
      e2.y + (e2.y - e1.y) / Real.sqrt ((e2.x - e1.x) ^ 2 + (e2.y - e1.y) ^ 2) *
        (r1 + r2 - Real.sqrt ((e2.x - e1.x) ^ 2 + (e2.y - e1.y) ^ 2)) * (m1 / (m1 + m2)) := by
    unfold resolveCircleCollision
    simp only [if_neg hnn, if_neg hn001]
    split_ifs <;> rfl
  refine ⟨⟨h1x, h1y, h2x, h2y⟩, ⟨?_, ?_⟩, ?_⟩
  · have hk2 : (0 : ℝ) ≤ (r1 + r2 - Real.sqrt ((e2.x - e1.x) ^ 2 + (e2.y - e1.y) ^ 2)) *
        (m2 / (m1 + m2)) := mul_nonneg hko (div_pos hm2 hM).le
    rw [h1x, h1y]
    convert sqrt_scaled_unit hu hk2 using 2
    ring
  · have hk1 : (0 : ℝ) ≤ (r1 + r2 - Real.sqrt ((e2.x - e1.x) ^ 2 + (e2.y - e1.y) ^ 2)) *
        (m1 / (m1 + m2)) := mul_nonneg hko (div_pos hm1 hM).le
    rw [h2x, h2y]
    convert sqrt_scaled_unit hu hk1 using 2
    ring
  · have hK : (0 : ℝ) ≤ r1 + r2 := by linarith
    have hsx : (resolveCircleCollision e1 r1 e2 r2 m1 m2 rest).2.1.x -
        (resolveCircleCollision e1 r1 e2 r2 m1 m2 rest).1.x =
        (e2.x - e1.x) / Real.sqrt ((e2.x - e1.x) ^ 2 + (e2.y - e1.y) ^ 2) * (r1 + r2) := by
      rw [h2x, h1x]
      field_simp
      ring
    have hsy : (resolveCircleCollision e1 r1 e2 r2 m1 m2 rest).2.1.y -
        (resolveCircleCollision e1 r1 e2 r2 m1 m2 rest).1.y =
        (e2.y - e1.y) / Real.sqrt ((e2.x - e1.x) ^ 2 + (e2.y - e1.y) ^ 2) * (r1 + r2) := by
      rw [h2y, h1y]
      field_simp
      ring
    rw [hsx, hsy]
    exact sqrt_scaled_unit hu hK

/-- C6 witness: circles of masses 1 and 3 overlapping by 10 units along the
x axis: the lighter moves 7.5 units (to -7.5) and the heavier 2.5 units (to
17.5), in proportion to the mass share of the other circle. -/
theorem c6_witness :
    (resolveCircleCollision ⟨0, 0, 0, 0⟩ 10 ⟨15, 0, 0, 0⟩ 15 1 3 0.9).1.x = -7.5 ∧
    (resolveCircleCollision ⟨0, 0, 0, 0⟩ 10 ⟨15, 0, 0, 0⟩ 15 1 3 0.9).2.1.x = 17.5 := by
  have s225 : Real.sqrt 225 = 15 := sqrt_val (by norm_num) (by norm_num)
  have h := c6_mass_weighted_separation ⟨0, 0, 0, 0⟩ 10 ⟨15, 0, 0, 0⟩ 15 1 3 0.9
    (by norm_num [s225]) (by norm_num [s225]) (by norm_num) (by norm_num)
  obtain ⟨⟨h1x, -, h2x, -⟩, -, -⟩ := h
  norm_num [s225] at h1x h2x ⊢
  exact ⟨h1x, h2x⟩

/-- C6 counterexample: two circles with distinct centers 0.0005 apart (below
the 0.001 threshold) are separated along the arbitrary axis (1, 0) by the
overlap computed against distance 1, not against the true distance: the
lighter circle moves 18 units, not overlap times 3/4 = 18.749625, and the
resulting center distance 24.0005 is still smaller than r1 + r2 = 25, so
the overlap is not fully eliminated. -/
theorem c6_counterexample :
    (resolveCircleCollision ⟨0, 0, 0, 0⟩ 10 ⟨1/2000, 0, 0, 0⟩ 15 1 3 0.9).1.x = -18 ∧
    (resolveCircleCollision ⟨0, 0, 0, 0⟩ 10 ⟨1/2000, 0, 0, 0⟩ 15 1 3 0.9).2.1.x = 12001/2000 ∧
    ((0 : ℝ) - (resolveCircleCollision ⟨0, 0, 0, 0⟩ 10 ⟨1/2000, 0, 0, 0⟩ 15 1 3 0.9).1.x) ≠
      ((10 + 15) - 1/2000) * (3 / (1 + 3)) ∧
    Real.sqrt
      (((resolveCircleCollision ⟨0, 0, 0, 0⟩ 10 ⟨1/2000, 0, 0, 0⟩ 15 1 3 0.9).2.1.x -
         (resolveCircleCollision ⟨0, 0, 0, 0⟩ 10 ⟨1/2000, 0, 0, 0⟩ 15 1 3 0.9).1.x) ^ 2 +
       ((resolveCircleCollision ⟨0, 0, 0, 0⟩ 10 ⟨1/2000, 0, 0, 0⟩ 15 1 3 0.9).2.1.y -
         (resolveCircleCollision ⟨0, 0, 0, 0⟩ 10 ⟨1/2000, 0, 0, 0⟩ 15 1 3 0.9).1.y) ^ 2) <
      10 + 15 := by
  have s1 : Real.sqrt (1/4000000) = 1/2000 := sqrt_val (by norm_num) (by norm_num)
  have s2 : Real.sqrt (2304096001/4000000) = 48001/2000 := sqrt_val (by norm_num) (by norm_num)
  refine ⟨?_, ?_, ?_, ?_⟩ <;> norm_num [resolveCircleCollision, s1, s2]

set_option maxHeartbeats 2000000 in
/-- C4 (amended): for an entity in a corner region whose distance d from the
arc center exceeds corner_radius - entity_radius and also exceeds the 0.001
guard, enforce_boundary moves it radially onto the limit circle at distance
exactly corner_radius - entity_radius from the arc center, and exactly when
the outward radial velocity component is positive that component is scaled
by (1 - 2 restitution) — not replaced by -restitution times itself — while
the tangential component is unchanged; wall checks are skipped. -/
theorem c4_corner_reflection (cfg : GameConfig) (e : Body) (radius : ℝ)
    (isBall : Bool) (cx cy : ℝ)
    (hc : isInCornerRegion cfg e.x e.y = some (cx, cy))
    (hmd : 0 ≤ cfg.corner_radius - radius)
    (hout : cfg.corner_radius - radius < Real.sqrt ((e.x - cx) ^ 2 + (e.y - cy) ^ 2))
    (heps : 0.001 < Real.sqrt ((e.x - cx) ^ 2 + (e.y - cy) ^ 2)) :
    ((enforceBoundary cfg e radius isBall).x =
       cx + (e.x - cx) / Real.sqrt ((e.x - cx) ^ 2 + (e.y - cy) ^ 2) *
         (cfg.corner_radius - radius) ∧
     (enforceBoundary cfg e radius isBall).y =
       cy + (e.y - cy) / Real.sqrt ((e.x - cx) ^ 2 + (e.y - cy) ^ 2) *
         (cfg.corner_radius - radius)) ∧
    Real.sqrt (((enforceBoundary cfg e radius isBall).x - cx) ^ 2 +
        ((enforceBoundary cfg e radius isBall).y - cy) ^ 2) =
      cfg.corner_radius - radius ∧
    ((enforceBoundary cfg e radius isBall).vx *
        ((e.x - cx) / Real.sqrt ((e.x - cx) ^ 2 + (e.y - cy) ^ 2)) +
      (enforceBoundary cfg e radius isBall).vy *
        ((e.y - cy) / Real.sqrt ((e.x - cx) ^ 2 + (e.y - cy) ^ 2)) =
      (if 0 < e.vx * ((e.x - cx) / Real.sqrt ((e.x - cx) ^ 2 + (e.y - cy) ^ 2)) +
            e.vy * ((e.y - cy) / Real.sqrt ((e.x - cx) ^ 2 + (e.y - cy) ^ 2)) then
        (1 - 2 * (if isBall then (0.8 : ℝ) else 0.5)) *
          (e.vx * ((e.x - cx) / Real.sqrt ((e.x - cx) ^ 2 + (e.y - cy) ^ 2)) +
           e.vy * ((e.y - cy) / Real.sqrt ((e.x - cx) ^ 2 + (e.y - cy) ^ 2)))
      else
        e.vx * ((e.x - cx) / Real.sqrt ((e.x - cx) ^ 2 + (e.y - cy) ^ 2)) +
          e.vy * ((e.y - cy) / Real.sqrt ((e.x - cx) ^ 2 + (e.y - cy) ^ 2)))) ∧
    ((enforceBoundary cfg e radius isBall).vx *
        ((e.y - cy) / Real.sqrt ((e.x - cx) ^ 2 + (e.y - cy) ^ 2)) -
      (enforceBoundary cfg e radius isBall).vy *
        ((e.x - cx) / Real.sqrt ((e.x - cx) ^ 2 + (e.y - cy) ^ 2)) =
      e.vx * ((e.y - cy) / Real.sqrt ((e.x - cx) ^ 2 + (e.y - cy) ^ 2)) -
        e.vy * ((e.x - cx) / Real.sqrt ((e.x - cx) ^ 2 + (e.y - cy) ^ 2))) := by
  have hd0 : (0 : ℝ) < Real.sqrt ((e.x - cx) ^ 2 + (e.y - cy) ^ 2) :=
    lt_trans (by norm_num) heps
  have hdne : Real.sqrt ((e.x - cx) ^ 2 + (e.y - cy) ^ 2) ≠ 0 := ne_of_gt hd0
  have hu : ((e.x - cx) / Real.sqrt ((e.x - cx) ^ 2 + (e.y - cy) ^ 2)) ^ 2 +
      ((e.y - cy) / Real.sqrt ((e.x - cx) ^ 2 + (e.y - cy) ^ 2)) ^ 2 = 1 :=
    normSq_unit hdne
  have hex : (enforceBoundary cfg e radius isBall).x =
      cx + (e.x - cx) / Real.sqrt ((e.x - cx) ^ 2 + (e.y - cy) ^ 2) *
        (cfg.corner_radius - radius) := by
    unfold enforceBoundary
    rw [hc]
    dsimp only
    rw [if_pos hout, if_pos heps]
    split_ifs <;> rfl
  have hey : (enforceBoundary cfg e radius isBall).y =
      cy + (e.y - cy) / Real.sqrt ((e.x - cx) ^ 2 + (e.y - cy) ^ 2) *
        (cfg.corner_radius - radius) := by
    unfold enforceBoundary
    rw [hc]
    dsimp only
    rw [if_pos hout, if_pos heps]
    split_ifs <;> rfl
  have hevx : (enforceBoundary cfg e radius isBall).vx =
      (if 0 < e.vx * ((e.x - cx) / Real.sqrt ((e.x - cx) ^ 2 + (e.y - cy) ^ 2)) +
            e.vy * ((e.y - cy) / Real.sqrt ((e.x - cx) ^ 2 + (e.y - cy) ^ 2)) then
        e.vx - 2 * (e.vx * ((e.x - cx) / Real.sqrt ((e.x - cx) ^ 2 + (e.y - cy) ^ 2)) +
            e.vy * ((e.y - cy) / Real.sqrt ((e.x - cx) ^ 2 + (e.y - cy) ^ 2))) *
          ((e.x - cx) / Real.sqrt ((e.x - cx) ^ 2 + (e.y - cy) ^ 2)) *
          (if isBall then (0.8 : ℝ) else 0.5)
      else e.vx) := by
    unfold enforceBoundary
    rw [hc]
    dsimp only
    rw [if_pos hout, if_pos heps]
    split_ifs <;> rfl
  have hevy : (enforceBoundary cfg e radius isBall).vy =
      (if 0 < e.vx * ((e.x - cx) / Real.sqrt ((e.x - cx) ^ 2 + (e.y - cy) ^ 2)) +
            e.vy * ((e.y - cy) / Real.sqrt ((e.x - cx) ^ 2 + (e.y - cy) ^ 2)) then
        e.vy - 2 * (e.vx * ((e.x - cx) / Real.sqrt ((e.x - cx) ^ 2 + (e.y - cy) ^ 2)) +
            e.vy * ((e.y - cy) / Real.sqrt ((e.x - cx) ^ 2 + (e.y - cy) ^ 2))) *
          ((e.y - cy) / Real.sqrt ((e.x - cx) ^ 2 + (e.y - cy) ^ 2)) *
          (if isBall then (0.8 : ℝ) else 0.5)
      else e.vy) := by
    unfold enforceBoundary
    rw [hc]
    dsimp only
    rw [if_pos hout, if_pos heps]
    split_ifs <;> rfl
  refine ⟨⟨hex, hey⟩, ?_, ?_, ?_⟩
  · rw [hex, hey]
    convert sqrt_scaled_unit hu hmd using 2
    ring
  · rw [hevx, hevy]
    split_ifs with hdot hb
    · linear_combination (-(8/5) * (e.vx * ((e.x - cx) / Real.sqrt ((e.x - cx) ^ 2 + (e.y - cy) ^ 2)) +
        e.vy * ((e.y - cy) / Real.sqrt ((e.x - cx) ^ 2 + (e.y - cy) ^ 2)))) * hu
    · linear_combination (-(e.vx * ((e.x - cx) / Real.sqrt ((e.x - cx) ^ 2 + (e.y - cy) ^ 2)) +
        e.vy * ((e.y - cy) / Real.sqrt ((e.x - cx) ^ 2 + (e.y - cy) ^ 2)))) * hu
    · rfl
  · rw [hevx, hevy]
    split_ifs with hdot hb
    · ring
    · ring
    · rfl

/-- C4 witness: a ball at (23, 14) in the top-left corner region with arc
center (50, 50), at distance 45 from the center, is pushed back onto the
limit circle of radius corner_radius - 10 = 40. -/
theorem c4_witness :
    Real.sqrt (((enforceBoundary cfgW ⟨23, 14, -6, -8⟩ 10 true).x - 50) ^ 2 +
      ((enforceBoundary cfgW ⟨23, 14, -6, -8⟩ 10 true).y - 50) ^ 2) =
      cfgW.corner_radius - 10 := by
  have s2025 : Real.sqrt 2025 = 45 := sqrt_val (by norm_num) (by norm_num)
  exact (c4_corner_reflection cfgW ⟨23, 14, -6, -8⟩ 10 true 50 50
    (by norm_num [isInCornerRegion, cfgW])
    (by norm_num [cfgW])
    (by norm_num [cfgW, s2025])
    (by norm_num [s2025])).2.1

/-- C4 counterexample: first, for the ball at (23, 14) moving outward with
radial component 10, the post-bounce radial component is -6 = (1 - 1.6)
times 10, not -restitution times 10 = -8, so the radial component is not
replaced by -0.8 times its previous value.  Second, an entity whose
distance 0.001 from the arc center exceeds corner_radius - entity_radius =
0.0005 but does not exceed the 0.001 guard is left unchanged, not moved
onto the limit circle. -/
theorem c4_counterexample :
    ((enforceBoundary cfgW ⟨23, 14, -6, -8⟩ 10 true).vx * (-(3/5)) +
      (enforceBoundary cfgW ⟨23, 14, -6, -8⟩ 10 true).vy * (-(4/5)) ≠
      -(0.8) * ((-6 : ℝ) * (-(3/5)) + (-8) * (-(4/5)))) ∧
    (enforceBoundary cfgW ⟨499994/10000, 499992/10000, 0, 0⟩ (499995/10000) false =
      ⟨499994/10000, 499992/10000, 0, 0⟩) ∧
    cfgW.corner_radius - 499995/10000 <
      Real.sqrt (((499994/10000 : ℝ) - 50) ^ 2 + ((499992/10000 : ℝ) - 50) ^ 2) ∧
    Real.sqrt (((499994/10000 : ℝ) - 50) ^ 2 + ((499992/10000 : ℝ) - 50) ^ 2) ≠
      cfgW.corner_radius - 499995/10000 := by
  have s2025 : Real.sqrt 2025 = 45 := sqrt_val (by norm_num) (by norm_num)
  have s3 : Real.sqrt (1/1000000) = 1/1000 := sqrt_val (by norm_num) (by norm_num)
  refine ⟨?_, ?_, ?_, ?_⟩
  · norm_num [enforceBoundary, isInCornerRegion, cfgW, s2025]
  · norm_num [enforceBoundary, isInCornerRegion, cfgW, s3]
  · norm_num [cfgW, s3]
  · norm_num [cfgW, s3]

/-- Entries of a score list never decrease under the increment. -/
theorem set_incr_getD_le (s : List ℤ) (n i : ℕ) :
    s.getD i 0 ≤ (s.set n (s.getD n 0 + 1)).getD i 0 := by
  induction s generalizing n i with
  | nil => simp
  | cons a s ih =>
    cases n with
    | zero =>
      cases i with
      | zero => simp
      | succ j => simp
    | succ m =>
      cases i with
      | zero => simp
      | succ j => simpa using ih m j

/-- C10: one call to Game.step never decreases either score; the scores are
unchanged except on the tick the celebration countdown reaches zero, when
exactly the pending scoring team gains exactly one point. -/
theorem c10_score_step (cfg : GameConfig) (acts : ℤ × ℕ → Option Action)
    (rnd : StepRandom) (g : Game) :
    ((step cfg acts rnd g).1.score = g.score ∨
      (g.status = GameStatus.running ∧ g.goal_celebration_remaining = 1 ∧
       ∃ t, g.pending_goal_scorer = some t ∧
         (step cfg acts rnd g).1.score = incScore g.score t)) ∧
    (∀ i, g.score.getD i 0 ≤ (step cfg acts rnd g).1.score.getD i 0) ∧
    (g.status = GameStatus.running → g.goal_celebration_remaining = 1 →
      ∀ t, g.pending_goal_scorer = some t →
        (step cfg acts rnd g).1.score = incScore g.score t) ∧
    (∀ a b : ℤ, incScore [a, b] 0 = [a + 1, b] ∧ incScore [a, b] 1 = [a, b + 1]) := by
  have hdet : ∀ (o : Option ℤ) (gg : Game), (applyGoalDetection cfg gg o).score = gg.score := by
    intro o gg
    cases o <;> rfl
  have hscore : (step cfg acts rnd g).1.score = g.score ∨
      (g.status = GameStatus.running ∧ g.goal_celebration_remaining = 1 ∧
       ∃ t, g.pending_goal_scorer = some t ∧
         (step cfg acts rnd g).1.score = incScore g.score t) := by
    by_cases hst : g.status = GameStatus.running
    · by_cases hcel : 0 < g.goal_celebration_remaining
      · cases hp : g.pending_goal_scorer with
        | none =>
          left
          simp only [step, hst, hcel, hp]
          norm_num
          split_ifs <;> rfl
        | some t =>
          by_cases hrem : g.goal_celebration_remaining - 1 = 0
          · right
            refine ⟨hst, by omega, t, rfl, ?_⟩
            · simp only [step, hst, hcel, hp, hrem, resetPositions]
              norm_num
              split_ifs <;> rfl
          · left
            simp only [step, hst, hcel, hp, hrem]
            norm_num [hrem]
            split_ifs <;> rfl
      · left
        simp only [step, hst, hcel]
        norm_num
        split_ifs <;> simp [hdet]
    · left
      simp [step, hst]
  refine ⟨hscore, ?_, ?_, ?_⟩
  · intro i
    rcases hscore with h | ⟨-, -, t, -, h⟩
    · rw [h]
    · rw [h]
      exact set_incr_getD_le g.score t.toNat i
  · intro hst hrem t hp
    have hcel : 0 < g.goal_celebration_remaining := by omega
    have hrem0 : g.goal_celebration_remaining - 1 = 0 := by omega
    simp only [step, hst, hcel, hp, hrem0, resetPositions]
    norm_num
    split_ifs <;> rfl
  · intro a b
    constructor <;> simp [incScore]

/-- C10 witness: a running game one celebration tick from completion with
pending scorer team 0 and score 0-0 steps to score 1-0. -/
theorem c10_witness : (step cfgW acts0 rnd0 gC10).1.score = [1, 0] := by
  have h := (c10_score_step cfgW acts0 rnd0 gC10).2.2.1 rfl rfl 0 rfl
  norm_num [incScore, gC10] at h
  exact h

/-- The velocity clamp caps the speed at the given nonnegative maximum. -/
theorem clampVelocity_speed_le (b : Body) (m : ℝ) (hm : 0 ≤ m) :
    (clampVelocity b m).speed ≤ m := by
  unfold clampVelocity Body.speed
  dsimp only
  split_ifs with h
  · have hs0 : (0 : ℝ) < Real.sqrt (b.vx ^ 2 + b.vy ^ 2) := lt_of_le_of_lt hm h
    have hu := normSq_unit (ne_of_gt hs0)
    exact le_of_eq (sqrt_scaled_unit hu hm)
  · exact not_lt.mp h

/-- C1 (amended): apply_acceleration leaves a player at speed at most the
configured max player speed, and update_positions leaves the ball at speed
at most the configured max ball speed, each maximum assumed nonnegative;
the claim as stated fails because the later collision resolution of the
same step can push speeds past these maxima. -/
theorem c1_clamped_phases (cfg : GameConfig) (p : Player) (ax ay : ℝ)
    (players : List Player) (ball : Ball)
    (hp : 0 ≤ cfg.player_max_speed) (hb : 0 ≤ cfg.ball_max_speed) :
    (applyAcceleration cfg p ax ay).speed ≤ cfg.player_max_speed ∧
    (updatePositions cfg players ball).2.speed ≤ cfg.ball_max_speed := by
  constructor
  · simp only [applyAcceleration, Player.speed]
    exact clampVelocity_speed_le _ _ hp
  · simp only [updatePositions, Ball.speed]
    exact clampVelocity_speed_le _ _ hb

/-- C1 witness: with the concrete configuration, a clamped acceleration step
and a position update respect the maxima 30 and 20. -/
theorem c1_witness :
    (applyAcceleration cfgW pC5 1 2).speed ≤ cfgW.player_max_speed ∧
    (updatePositions cfgW [] ballC3).2.speed ≤ cfgW.ball_max_speed :=
  c1_clamped_phases cfgW pC5 1 2 [] ballC3 (by norm_num [cfgW]) (by norm_num [cfgW])

/-- One step of the bounded collision iteration. -/
theorem handleLoop_succ (cfg : GameConfig) (n : ℕ) (ps : List Player) (b : Ball) :
    handleLoop cfg (Nat.succ n) ps b =
      (let r := collisionPass cfg ps b
       if r.2.2 then handleLoop cfg n r.1 r.2.1 else (r.1, r.2.1)) := rfl

set_option maxHeartbeats 2000000 in
/-- C1 counterexample: starting from the freshly initialized game of cfgC1
(a reachable state: the random ball velocity draw (2, 0) has speed 2, inside
the legal setup range 2 to 5), one Game.step with every action equal to
(2, 0, no kick) ends with the ball at speed 34/15, strictly above the
configured max ball speed 1: the player-ball collision impulse is applied
after the velocity clamp of update_positions. -/
theorem c1_counterexample :
    cfgC1.ball_max_speed < (step cfgC1 actsC1 rnd0 gC1).1.ball.speed ∧
    (2 : ℝ) ≤ Real.sqrt (2 ^ 2 + 0 ^ 2) ∧ Real.sqrt (2 ^ 2 + 0 ^ 2) ≤ 5 := by
  have s4 : Real.sqrt 4 = 2 := sqrt_val (by norm_num) (by norm_num)
  have s100 : Real.sqrt 100 = 10 := sqrt_val (by norm_num) (by norm_num)
  have s625 : Real.sqrt 625 = 25 := sqrt_val (by norm_num) (by norm_num)
  have s1156 : Real.sqrt (1156/225) = 34/15 := sqrt_val (by norm_num) (by norm_num)
  have hg : gC1 = { players := [⟨⟨300, 300, 0, 0⟩, 15, 0, 0, 1, 0⟩],
                    ball := ⟨⟨310, 300, 2, 0⟩, 10, 1/2⟩,
                    goals := setupGoals cfgC1,
                    score := [0, 0], tick := 0, status := GameStatus.running,
                    goal_celebration_remaining := 0,
                    pending_goal_scorer := none } := by
    norm_num [gC1, initialGame, setupTeam, cfgC1, List.enum, List.enumFrom]
  have hacc : applyAcceleration cfgC1 ⟨⟨300, 300, 0, 0⟩, 15, 0, 0, 1, 0⟩ 2 0 =
      ⟨⟨300, 300, 2, 0⟩, 15, 0, 0, 1, 0⟩ := by
    norm_num [applyAcceleration, clampVelocity, cfgC1, s4]
  have hkick : processKicks cfgC1 actsC1 [⟨⟨300, 300, 2, 0⟩, 15, 0, 0, 1, 0⟩]
      ⟨⟨310, 300, 2, 0⟩, 10, 1/2⟩ =
      ([⟨⟨300, 300, 2, 0⟩, 15, 0, 0, 1, 0⟩], ⟨⟨310, 300, 2, 0⟩, 10, 1/2⟩) := by
    norm_num [processKicks, processKick, actsC1]
  have hupd : updatePositions cfgC1 [⟨⟨300, 300, 2, 0⟩, 15, 0, 0, 1, 0⟩]
      ⟨⟨310, 300, 2, 0⟩, 10, 1/2⟩ =
      ([⟨⟨302, 300, 2, 0⟩, 15, 0, 0, 1, 0⟩], ⟨⟨312, 300, 1, 0⟩, 10, 1/2⟩) := by
    norm_num [updatePositions, clampVelocity, cfgC1, Real.sqrt_one]
  have hb1 : enforceBoundary cfgC1 ⟨302, 300, 2, 0⟩ 15 false = ⟨302, 300, 2, 0⟩ := by
    norm_num [enforceBoundary, isInCornerRegion, cfgC1]
  have hb2 : enforceBoundary cfgC1 ⟨312, 300, 1, 0⟩ 10 true = ⟨312, 300, 1, 0⟩ := by
    norm_num [enforceBoundary, isInCornerRegion, cfgC1]
  have hb3 : enforceBoundary cfgC1 ⟨297, 300, 41/30, 0⟩ 15 false = ⟨297, 300, 41/30, 0⟩ := by
    norm_num [enforceBoundary, isInCornerRegion, cfgC1]
  have hb4 : enforceBoundary cfgC1 ⟨322, 300, 34/15, 0⟩ 10 true = ⟨322, 300, 34/15, 0⟩ := by
    norm_num [enforceBoundary, isInCornerRegion, cfgC1]
  have hrc1 : resolveCircleCollision ⟨302, 300, 2, 0⟩ 15 ⟨312, 300, 1, 0⟩ 10 1 (1/2) (9/10) =
      (⟨297, 300, 41/30, 0⟩, ⟨322, 300, 34/15, 0⟩, true) := by
    norm_num [resolveCircleCollision, s100]
  have hrc2 : resolveCircleCollision ⟨297, 300, 41/30, 0⟩ 15 ⟨322, 300, 34/15, 0⟩ 10 1 (1/2) (9/10) =
      (⟨297, 300, 41/30, 0⟩, ⟨322, 300, 34/15, 0⟩, false) := by
    norm_num [resolveCircleCollision, s625]
  have hpass1 : collisionPass cfgC1 [⟨⟨302, 300, 2, 0⟩, 15, 0, 0, 1, 0⟩]
      ⟨⟨312, 300, 1, 0⟩, 10, 1/2⟩ =
      ([⟨⟨297, 300, 41/30, 0⟩, 15, 0, 0, 1, 0⟩], ⟨⟨322, 300, 34/15, 0⟩, 10, 1/2⟩, true) := by
    norm_num [collisionPass, playerBallLoop, resolvePlayerBall, playerPairLoop,
      playerPairLoopAux, playerPairInner, hb1, hb2, hb3, hb4, hrc1]
  have hpass2 : collisionPass cfgC1 [⟨⟨297, 300, 41/30, 0⟩, 15, 0, 0, 1, 0⟩]
      ⟨⟨322, 300, 34/15, 0⟩, 10, 1/2⟩ =
      ([⟨⟨297, 300, 41/30, 0⟩, 15, 0, 0, 1, 0⟩], ⟨⟨322, 300, 34/15, 0⟩, 10, 1/2⟩, false) := by
    norm_num [collisionPass, playerBallLoop, resolvePlayerBall, playerPairLoop,
      playerPairLoopAux, playerPairInner, hb3, hb4, hrc2]
  have h10 : handleLoop cfgC1 10 [⟨⟨302, 300, 2, 0⟩, 15, 0, 0, 1, 0⟩]
      ⟨⟨312, 300, 1, 0⟩, 10, 1/2⟩ =
      handleLoop cfgC1 9 [⟨⟨297, 300, 41/30, 0⟩, 15, 0, 0, 1, 0⟩]
        ⟨⟨322, 300, 34/15, 0⟩, 10, 1/2⟩ := by
    rw [show (10 : ℕ) = Nat.succ 9 from rfl, handleLoop_succ, hpass1]
    norm_num
  have h9 : handleLoop cfgC1 9 [⟨⟨297, 300, 41/30, 0⟩, 15, 0, 0, 1, 0⟩]
      ⟨⟨322, 300, 34/15, 0⟩, 10, 1/2⟩ =
      ([⟨⟨297, 300, 41/30, 0⟩, 15, 0, 0, 1, 0⟩], ⟨⟨322, 300, 34/15, 0⟩, 10, 1/2⟩) := by
    rw [show (9 : ℕ) = Nat.succ 8 from rfl, handleLoop_succ, hpass2]
    norm_num
  have hcol : handleAllCollisions cfgC1 [⟨⟨302, 300, 2, 0⟩, 15, 0, 0, 1, 0⟩]
      ⟨⟨312, 300, 1, 0⟩, 10, 1/2⟩ =
      ([⟨⟨297, 300, 41/30, 0⟩, 15, 0, 0, 1, 0⟩], ⟨⟨322, 300, 34/15, 0⟩, 10, 1/2⟩) := by
    rw [handleAllCollisions, h10, h9]
  have hgoal : checkGoal cfgC1 ⟨⟨322, 300, 34/15, 0⟩, 10, 1/2⟩ (setupGoals cfgC1) = none := by
    norm_num [checkGoal, setupGoals, Goal.top, Goal.bottom, cfgC1]
  have hstep : (step cfgC1 actsC1 rnd0 gC1).1.ball = ⟨⟨322, 300, 34/15, 0⟩, 10, 1/2⟩ := by
    rw [hg]
    norm_num [step, actsC1, applyGoalDetection, hacc, hkick, hupd, hcol, hgoal,
      show cfgC1.max_ticks = 1000 from rfl]
  refine ⟨?_, by norm_num [s4], by norm_num [s4]⟩
  rw [hstep]
  norm_num [Ball.speed, Body.speed, cfgC1, s1156]

end Football
